import Mathlib

/-!
Shallow embedding of the shared ephemeral-state registry in `src/main.py`
(an "Enhanced Player Server with Shared Markers/Pings").

The Python module keeps two process-wide dictionaries, `players` (keyed by
the JSON `username` value) and `shared_markers` (keyed by a generated
marker-id string), and exposes the endpoints `join`, `place_marker`,
`get_markers`, `remove_marker` and `clear_markers`, plus a background
`cleanup_inactive` loop.  Each endpoint is embedded here as a pure function
from the pair of dictionaries (plus its request data and the sampled clock
value) to a response value and the new pair of dictionaries.

Modelling conventions:
* JSON values arriving in request bodies are modelled by `JVal`, restricted
  to the shapes these endpoints exchange: `null`, numbers (as `Int`),
  strings, and flat objects with numeric fields (the coordinate dicts).
  Python truthiness on such a value is `JVal.truthy`.
* Clock readings (`time.time()`) are passed in explicitly as an `Int`
  parameter `now`; the generated `uuid4` marker id is likewise a `String`
  parameter supplied by the environment.
* The two dictionaries are association lists; `upd` is Python dict
  assignment (replace in place if the key is present, append otherwise),
  `alookup` is subscripting / `.get`, `delKey` is `del`.
* The `expires_in` request field is special: the code distinguishes the key
  being absent (`data.get("expires_in", MARKER_EXPIRY)` yields the default)
  from it being explicitly `null`.  It is modelled as `Option (Option Int)`:
  `none` = key absent, `some none` = explicit `null`, `some (some n)` = the
  number `n`.  (A non-numeric `expires_in` would raise an uncaught
  `TypeError` inside the handler and is outside this model.)
-/

namespace ServerCode

/-- JSON values exchanged by the endpoints of `src/main.py`, restricted to
the shapes these handlers use: null, numbers, strings, and flat numeric
objects (coordinate dicts like `{"x": 10, "y": 20, "z": 5}`). -/
inductive JVal where
  | null : JVal
  | int : Int → JVal
  | str : String → JVal
  | obj : List (String × Int) → JVal
deriving DecidableEq

/-- Python truthiness of a `JVal`: `None`, `0`, `""` and `{}` are falsy. -/
def JVal.truthy : JVal → Bool
  | JVal.null => false
  | JVal.int n => decide (n ≠ 0)
  | JVal.str s => decide (s ≠ "")
  | JVal.obj kvs => decide (kvs ≠ [])

/-- One entry of the `players` dict:
`dict(level=..., coords=..., frequency=..., last_update=...)`. -/
structure Player where
  level : JVal
  coords : JVal
  frequency : JVal
  last_update : Int
deriving DecidableEq

/-- One entry of the `shared_markers` dict:
`dict(username, frequency, level, coords, marker_type, timestamp, expires_at)`,
where `expires_at` is a number or `None`. -/
structure Marker where
  username : JVal
  frequency : JVal
  level : JVal
  coords : JVal
  marker_type : JVal
  timestamp : Int
  expires_at : Option Int
deriving DecidableEq

/-- The process-wide mutable state: the `players` dict (keyed by the JSON
`username` value) and the `shared_markers` dict (keyed by the generated
marker-id string). -/
structure ServerState where
  players : List (JVal × Player)
  shared_markers : List (String × Marker)
deriving DecidableEq

/-- Dictionary lookup on an association list (first entry with the key). -/
def alookup {α β : Type} [DecidableEq α] (k : α) : List (α × β) → Option β
  | [] => none
  | (k', v) :: rest => if k' = k then some v else alookup k rest

/-- Python dict assignment `d[k] = v`: replace the entry in place when the
key is present, append a new entry otherwise. -/
def upd {α β : Type} [DecidableEq α] (k : α) (v : β) : List (α × β) → List (α × β)
  | [] => [(k, v)]
  | (k', v') :: rest => if k' = k then (k, v) :: rest else (k', v') :: upd k v rest

/-- Python `del d[k]`: drop the entry with key `k`. -/
def delKey {α β : Type} [DecidableEq α] (k : α) (l : List (α × β)) : List (α × β) :=
  l.filter (fun p => !(decide (p.1 = k)))

/-- `INACTIVITY_TIMEOUT = 5 * 60`. -/
def INACTIVITY_TIMEOUT : Int := 5 * 60

/-- `MARKER_EXPIRY = 30 * 60`. -/
def MARKER_EXPIRY : Int := 30 * 60

/-- Response of the `/join` handler: either the `{"error": ...}` dict or a
`{"message": ..., "status": ...}` dict. -/
inductive JoinResp where
  | error : String → JoinResp
  | ok : String → String → JoinResp
deriving DecidableEq

/-- The `/join` handler.  Validation: `if not all([username, level, coords,
frequency is not None])`.  Then create, refresh-only (identical
level/coords/frequency), or full update, with the literal message/status
strings the Python code returns. -/
def join (st : ServerState) (username level coords frequency : JVal) (now : Int) :
    JoinResp × ServerState :=
  if !(username.truthy && level.truthy && coords.truthy && decide (frequency ≠ JVal.null)) then
    (JoinResp.error "Missing required fields", st)
  else
    match alookup username st.players with
    | some old =>
      if old.level = level ∧ old.coords = coords ∧ old.frequency = frequency then
        (JoinResp.ok "Updated timestamp" "no_change",
          { st with players := upd username { old with last_update := now } st.players })
      else
        (JoinResp.ok "Player updated" "updated",
          { st with players := upd username (Player.mk level coords frequency now) st.players })
    | none =>
      (JoinResp.ok "Player joined" "new",
        { st with players := upd username (Player.mk level coords frequency now) st.players })

/-- Response of the `/markers/place` handler: the error dict or
`{"message": ..., "marker_id": ..., "status": ...}`. -/
inductive PlaceResp where
  | error : String → PlaceResp
  | ok : String → String → String → PlaceResp
deriving DecidableEq

/-- The `/markers/place` handler.  `expires_in` models
`data.get("expires_in", MARKER_EXPIRY)`: `none` = key absent (default
applies), `some none` = explicit null, `some (some n)` = number `n`.
`expires_at = current_time + expires_in if expires_in else None`, so a
falsy `expires_in` (null or `0`) stores `None`. -/
def place_marker (st : ServerState) (username frequency level coords marker_type : JVal)
    (expires_in : Option (Option Int)) (now : Int) (marker_id : String) :
    PlaceResp × ServerState :=
  if !(username.truthy && decide (frequency ≠ JVal.null) && level.truthy &&
        coords.truthy && marker_type.truthy) then
    (PlaceResp.error "Missing required fields", st)
  else
    let expires_at : Option Int :=
      match expires_in with
      | none => some (now + MARKER_EXPIRY)
      | some none => none
      | some (some n) => if n = 0 then none else some (now + n)
    (PlaceResp.ok "Marker placed" marker_id "success",
      { st with shared_markers :=
          (upd marker_id (Marker.mk username frequency level coords marker_type now expires_at)
            st.shared_markers) })

/-- The expiry test used by both `get_markers` and `cleanup_inactive`:
`if marker["expires_at"] and current_time > marker["expires_at"]`.
Truthiness makes a stored `expires_at` of `None` or `0` never pass, and the
comparison is strict. -/
def markerExpired (m : Marker) (now : Int) : Bool :=
  match m.expires_at with
  | none => false
  | some e => decide (e ≠ 0) && decide (e < now)

/-- The per-marker keep condition of `/markers/get`: not expired, matching
the `frequency` filter when it is not `None`, and matching the `level`
filter when it is truthy (a supplied empty-string level is falsy and
imposes no constraint). -/
def keepMarker (frequency : Option Int) (level : Option String) (now : Int) (m : Marker) : Bool :=
  !(markerExpired m now) &&
  (match frequency with
   | none => true
   | some f => decide (m.frequency = JVal.int f)) &&
  (match level with
   | none => true
   | some l => if l = "" then true else decide (m.level = JVal.str l))

/-- The `/markers/get` handler: the filtered sub-dict of `shared_markers`. -/
def get_markers (st : ServerState) (frequency : Option Int) (level : Option String)
    (now : Int) : List (String × Marker) :=
  st.shared_markers.filter (fun p => keepMarker frequency level now p.2)

/-- Response of the `/markers/remove/{marker_id}` handler: an
`{"error": ..., "status": ...}` dict or the success dict. -/
inductive RemoveResp where
  | error : String → String → RemoveResp
  | ok : String → String → RemoveResp
deriving DecidableEq

/-- The `/markers/remove/{marker_id}` handler.  The ownership check is
`if username and marker["username"] != username`: it only fires when the
query parameter is present AND truthy (non-empty). -/
def remove_marker (st : ServerState) (marker_id : String) (username : Option String) :
    RemoveResp × ServerState :=
  match alookup marker_id st.shared_markers with
  | none => (RemoveResp.error "Marker not found" "not_found", st)
  | some marker =>
    let ownerMismatch : Bool :=
      match username with
      | none => false
      | some u => decide (u ≠ "") && decide (marker.username ≠ JVal.str u)
    if ownerMismatch then
      (RemoveResp.error "Not authorized to remove this marker" "unauthorized", st)
    else
      (RemoveResp.ok "Marker removed" "success",
        { st with shared_markers := delKey marker_id st.shared_markers })

/-- Response of the `/markers/clear` handler: the error dict, or the success
dict whose message carries the number of markers cleared (kept here as the
count itself). -/
inductive ClearResp where
  | error : String → ClearResp
  | ok : Nat → String → ClearResp
deriving DecidableEq

/-- The per-marker match of `/markers/clear`:
`if username and m["username"] == username: ... elif frequency is not None
and m["frequency"] == frequency: ...` — an OR of the two optional
predicates (the `elif` only prevents a double append). -/
def clearMatch (username : Option String) (frequency : Option Int) (m : Marker) : Bool :=
  (match username with
   | none => false
   | some u => decide (u ≠ "") && decide (m.username = JVal.str u)) ||
  (match frequency with
   | none => false
   | some f => decide (m.frequency = JVal.int f))

/-- The `/markers/clear` handler.  Validation:
`if not username and frequency is None` — a falsy (absent or empty)
username together with an absent frequency is rejected. -/
def clear_markers (st : ServerState) (username : Option String) (frequency : Option Int) :
    ClearResp × ServerState :=
  let userTruthy : Bool := match username with | none => false | some u => decide (u ≠ "")
  if !userTruthy && frequency.isNone then
    (ClearResp.error "Must provide username or frequency", st)
  else
    let to_remove := st.shared_markers.filter (fun p => clearMatch username frequency p.2)
    (ClearResp.ok to_remove.length "success",
      { st with shared_markers :=
          st.shared_markers.filter (fun p => !clearMatch username frequency p.2) })

/-- One iteration of the `cleanup_inactive` loop body: with a single sampled
`now`, drop players with `now - last_update > INACTIVITY_TIMEOUT`, then drop
markers whose truthy `expires_at` satisfies `now > expires_at`. -/
def cleanup_tick (st : ServerState) (now : Int) : ServerState :=
  { players := st.players.filter (fun p => !(decide (now - p.2.last_update > INACTIVITY_TIMEOUT))),
    shared_markers := st.shared_markers.filter (fun p => !(markerExpired p.2 now)) }

/-- The empty server state (both dicts empty, as at process start). -/
def emptyState : ServerState := ServerState.mk [] []

/-- Concrete coordinate object `{"x": 0, "y": 0, "z": 0}` (truthy: non-empty dict). -/
def coordsZero : JVal := JVal.obj [("x", 0), ("y", 0), ("z", 0)]

/-- Concrete coordinate object `{"x": 1, "y": 2, "z": 3}`. -/
def coordsDemo : JVal := JVal.obj [("x", 1), ("y", 2), ("z", 3)]

/-- A concrete marker whose `expires_at` is exactly `100`. -/
def mBoundary : Marker :=
  Marker.mk (JVal.str "bob") (JVal.int 5) (JVal.str "L1") coordsDemo (JVal.str "boss") 90
    (some 100)

/-- A state holding only `mBoundary` under id `"m1"`. -/
def stBoundary : ServerState := ServerState.mk [] [("m1", mBoundary)]

/-- A concrete marker owned by `"bob"` with a far-future expiry. -/
def mBob : Marker :=
  Marker.mk (JVal.str "bob") (JVal.int 5) (JVal.str "L1") coordsDemo (JVal.str "boss") 50
    (some 1000)

/-- A state holding only `mBob` under id `"m1"`. -/
def stBob : ServerState := ServerState.mk [] [("m1", mBob)]

/-- A concrete stored player matching the C4 scenario arguments. -/
def pEve : Player := Player.mk (JVal.int 1) coordsZero (JVal.int 2) 50

/-- A state holding only `pEve` under username `"eve"`. -/
def stEve : ServerState := ServerState.mk [(JVal.str "eve", pEve)] []

/-! ### Association-list lemmas (dict semantics) -/

theorem alookup_upd_self {α β : Type} [DecidableEq α] (k : α) (v : β) (l : List (α × β)) :
    alookup k (upd k v l) = some v := by
  induction l with
  | nil => simp [upd, alookup]
  | cons p rest ih =>
    obtain ⟨a, b⟩ := p
    by_cases h : a = k
    · simp [upd, h, alookup]
    · simp [upd, h, alookup, ih]

theorem alookup_upd_ne {α β : Type} [DecidableEq α] (k k' : α) (v : β) (l : List (α × β))
    (h : k' ≠ k) : alookup k' (upd k v l) = alookup k' l := by
  induction l with
  | nil => simp [upd, alookup, Ne.symm h]
  | cons p rest ih =>
    obtain ⟨a, b⟩ := p
    by_cases ha : a = k
    · subst ha
      simp [upd, alookup, Ne.symm h]
    · simp only [upd, if_neg ha]
      by_cases hak : a = k'
      · simp [alookup, hak]
      · simp [alookup, hak, ih]

theorem mem_delKey {α β : Type} [DecidableEq α] (k : α) (l : List (α × β)) (a : α) (b : β) :
    (a, b) ∈ delKey k l ↔ ((a, b) ∈ l ∧ a ≠ k) := by
  simp [delKey, List.mem_filter]

theorem alookup_delKey_self {α β : Type} [DecidableEq α] (k : α) (l : List (α × β)) :
    alookup k (delKey k l) = none := by
  induction l with
  | nil => rfl
  | cons p rest ih =>
    obtain ⟨a, b⟩ := p
    by_cases ha : a = k
    · simpa [delKey, List.filter_cons, ha] using ih
    · simp only [delKey, List.filter_cons] at ih ⊢
      simp [ha, alookup, ih]

theorem alookup_delKey_ne {α β : Type} [DecidableEq α] (k k' : α) (l : List (α × β))
    (h : k' ≠ k) : alookup k' (delKey k l) = alookup k' l := by
  induction l with
  | nil => rfl
  | cons p rest ih =>
    obtain ⟨a, b⟩ := p
    by_cases ha : a = k
    · subst ha
      simp only [delKey, List.filter_cons] at ih ⊢
      simp [alookup, Ne.symm h, ih]
    · simp only [delKey, List.filter_cons] at ih ⊢
      by_cases hak : a = k'
      · simp [alookup, ha, hak, h]
      · simp [alookup, ha, hak, ih]

theorem length_filter_add_length_filter_not {α : Type} (p : α → Bool) (l : List α) :
    (l.filter p).length + (l.filter (fun a => !(p a))).length = l.length := by
  induction l with
  | nil => rfl
  | cons a rest ih =>
    by_cases h : p a = true
    · simp [List.filter_cons, h]
      omega
    · simp [List.filter_cons, h, Bool.not_eq_true _ ▸ h]
      omega

/-! ### Characterizations of the boolean filter conditions -/

theorem not_markerExpired_iff (m : Marker) (now : Int) :
    (!(markerExpired m now)) = true ↔ (∀ e, m.expires_at = some e → e ≠ 0 → now ≤ e) := by
  unfold markerExpired
  cases h : m.expires_at with
  | none => simp
  | some e =>
    simp
    omega

theorem keepMarker_iff (frequency : Option Int) (level : Option String) (now : Int)
    (m : Marker) :
    keepMarker frequency level now m = true ↔
      ((∀ e, m.expires_at = some e → e ≠ 0 → now ≤ e) ∧
       (∀ q, frequency = some q → m.frequency = JVal.int q) ∧
       (∀ s, level = some s → s ≠ "" → m.level = JVal.str s)) := by
  unfold keepMarker
  rw [Bool.and_eq_true, Bool.and_eq_true]
  constructor
  · rintro ⟨⟨hA, hB⟩, hC⟩
    refine ⟨(not_markerExpired_iff m now).mp hA, ?_, ?_⟩
    · intro q hq
      subst hq
      simpa using hB
    · intro s hs hne
      subst hs
      simp only [if_neg hne] at hC
      exact of_decide_eq_true hC
  · rintro ⟨h1, h2, h3⟩
    refine ⟨⟨(not_markerExpired_iff m now).mpr h1, ?_⟩, ?_⟩
    · cases frequency with
      | none => rfl
      | some q => simpa using h2 q rfl
    · cases level with
      | none => rfl
      | some s =>
        by_cases hse : s = ""
        · simp [hse]
        · simp [hse, h3 s rfl hse]

theorem remove_success_post (st : ServerState) (id : String) (username : Option String)
    (hrm : remove_marker st id username =
      (RemoveResp.ok "Marker removed" "success",
        { st with shared_markers := delKey id st.shared_markers })) :
    (remove_marker st id username).1 = RemoveResp.ok "Marker removed" "success" ∧
    alookup id (remove_marker st id username).2.shared_markers = none ∧
    (∀ id', id' ≠ id →
        alookup id' (remove_marker st id username).2.shared_markers =
          alookup id' st.shared_markers) ∧
    (remove_marker st id username).2.players = st.players := by
  refine ⟨by rw [hrm], ?_, ?_, by rw [hrm]⟩
  · rw [hrm]
    simpa using alookup_delKey_self id st.shared_markers
  · intro id' hne
    rw [hrm]
    simpa using alookup_delKey_ne id id' st.shared_markers hne

theorem clearMatch_iff (username : Option String) (frequency : Option Int) (m : Marker) :
    clearMatch username frequency m = true ↔
      ((∃ u, username = some u ∧ u ≠ "" ∧ m.username = JVal.str u) ∨
       (∃ q, frequency = some q ∧ m.frequency = JVal.int q)) := by
  unfold clearMatch
  cases username <;> cases frequency <;> simp

/-! ### Claim theorems -/

/-- C1 (counterexample): the claim says a marker with non-null
`expires_at <= now` is excluded from query results; the code's check is
strict (`current_time > expires_at`), so a marker expiring exactly at `now`
(here `expires_at = 100`, queried at `now = 100` with no filters) is still
returned. -/
theorem C1_counterexample :
    mBoundary.expires_at = some 100 ∧ ((100 : Int) ≤ 100) ∧
    ("m1", mBoundary) ∈ get_markers stBoundary none none 100 := by decide

/-- C1 (amended): a marker query at time `now` returns exactly the stored
markers that are not yet strictly expired (every marker with a non-null,
non-zero `expires_at` STRICTLY LESS THAN `now` is excluded; a marker whose
`expires_at` equals `now`, is null, or is `0` is retained) and that satisfy
every supplied constraining equality filter: a supplied `frequency` always
constrains, and a supplied non-empty `level` constrains; omitted filters
(and an empty-string `level`) impose no constraint. -/
theorem C1_query_characterization (st : ServerState) (frequency : Option Int)
    (level : Option String) (now : Int) (id : String) (m : Marker) :
    (id, m) ∈ get_markers st frequency level now ↔
      ((id, m) ∈ st.shared_markers ∧
       (∀ e, m.expires_at = some e → e ≠ 0 → now ≤ e) ∧
       (∀ q, frequency = some q → m.frequency = JVal.int q) ∧
       (∀ s, level = some s → s ≠ "" → m.level = JVal.str s)) := by
  simp only [get_markers, List.mem_filter]
  constructor
  · rintro ⟨hmem, hkeep⟩
    exact ⟨hmem, (keepMarker_iff frequency level now m).mp hkeep⟩
  · rintro ⟨hmem, hrest⟩
    exact ⟨hmem, (keepMarker_iff frequency level now m).mpr hrest⟩

/-- C1 (witness): a concrete unexpired marker is returned by an unfiltered
query, via the characterization. -/
theorem C1_witness : ("m1", mBob) ∈ get_markers stBob none none 100 := by
  refine (C1_query_characterization stBob none none 100 "m1" mBob).mpr
    ⟨by decide, ?_, ?_, ?_⟩
  · intro e he hne
    have h0 : mBob.expires_at = some 1000 := rfl
    rw [h0] at he
    injection he with h2
    omega
  · intro q hq
    simp at hq
  · intro s hs hne
    simp at hs

/-- C3 (counterexample): the claim says that after a sweep tick at `now`,
every marker with non-null `expires_at <= now` is absent; the sweep's check
is strict (`now > expires_at`), so a marker with `expires_at = 100` survives
the tick at `now = 100`. -/
theorem C3_counterexample :
    mBoundary.expires_at = some 100 ∧ ((100 : Int) ≤ 100) ∧
    (cleanup_tick stBoundary 100).shared_markers = [("m1", mBoundary)] := by decide

/-- C3 (amended): one sweep tick samples a single `now` used for both
passes; after it, a participant remains iff it was present and
`now - last_update ≤ INACTIVITY_TIMEOUT` (so every participant with
`now - last_seen > InactivityTimeout` is evicted, as claimed), and a marker
remains iff it was present and its `expires_at` is null, `0`, or
`≥ now` (so eviction requires STRICTLY `expires_at < now`, not `≤ now`). -/
theorem C3_cleanup_characterization (st : ServerState) (now : Int) :
    (∀ u p, (u, p) ∈ (cleanup_tick st now).players ↔
        ((u, p) ∈ st.players ∧ now - p.last_update ≤ INACTIVITY_TIMEOUT)) ∧
    (∀ id m, (id, m) ∈ (cleanup_tick st now).shared_markers ↔
        ((id, m) ∈ st.shared_markers ∧ (∀ e, m.expires_at = some e → e ≠ 0 → now ≤ e))) := by
  constructor
  · intro u p
    simp [cleanup_tick, List.mem_filter, not_lt]
  · intro id m
    simp only [cleanup_tick, List.mem_filter]
    constructor
    · rintro ⟨hmem, hb⟩
      exact ⟨hmem, (not_markerExpired_iff m now).mp hb⟩
    · rintro ⟨hmem, hprop⟩
      exact ⟨hmem, (not_markerExpired_iff m now).mpr hprop⟩

/-- C3 (witness): a concrete not-yet-expired marker survives a concrete
sweep tick, via the characterization. -/
theorem C3_witness : ("m1", mBob) ∈ (cleanup_tick stBob 100).shared_markers := by
  refine ((C3_cleanup_characterization stBob 100).2 "m1" mBob).mpr ⟨by decide, ?_⟩
  intro e he hne
  have h0 : mBob.expires_at = some 1000 := rfl
  rw [h0] at he
  injection he with h2
  omega

/-- C2 (counterexample): the claim says an explicitly-null `ttl` still gets
the default TTL; in the code `data.get("expires_in", MARKER_EXPIRY)` only
applies the default when the key is ABSENT, and an explicit `null` makes
`expires_in` falsy, so `expires_at` is stored as `None` — the marker never
auto-expires. -/
theorem C2_counterexample :
    (place_marker emptyState (JVal.str "bob") (JVal.int 5) (JVal.str "L1") coordsDemo
        (JVal.str "boss") (some none) 100 "m1").2 =
      ServerState.mk []
        [("m1", Marker.mk (JVal.str "bob") (JVal.int 5) (JVal.str "L1") coordsDemo
            (JVal.str "boss") 100 none)] := by decide

/-- C2 (amended): for a valid placement, an ABSENT `ttl` yields the fixed
default window (`expires_at = now + MARKER_EXPIRY`), but an explicitly-null
`ttl` yields `expires_at = None`: the stored marker never auto-expires. -/
theorem C2_ttl_policy (st : ServerState) (u f l c k : JVal) (now : Int) (id : String)
    (hu : u.truthy = true) (hf : f ≠ JVal.null) (hl : l.truthy = true)
    (hc : c.truthy = true) (hk : k.truthy = true) :
    (place_marker st u f l c k none now id).2.shared_markers =
      upd id (Marker.mk u f l c k now (some (now + MARKER_EXPIRY))) st.shared_markers ∧
    (place_marker st u f l c k (some none) now id).2.shared_markers =
      upd id (Marker.mk u f l c k now none) st.shared_markers ∧
    (∀ m, alookup id (place_marker st u f l c k (some none) now id).2.shared_markers = some m →
        m.expires_at = none) := by
  have h1 : (place_marker st u f l c k none now id).2.shared_markers =
      upd id (Marker.mk u f l c k now (some (now + MARKER_EXPIRY))) st.shared_markers := by
    simp [place_marker, hu, hf, hl, hc, hk]
  have h2 : (place_marker st u f l c k (some none) now id).2.shared_markers =
      upd id (Marker.mk u f l c k now none) st.shared_markers := by
    simp [place_marker, hu, hf, hl, hc, hk]
  refine ⟨h1, h2, ?_⟩
  intro m hm
  rw [h2, alookup_upd_self] at hm
  injection hm with hm'
  rw [← hm']

/-- C2 (witness): the default-TTL branch of the amended claim at a concrete
valid placement with the `ttl` key absent. -/
theorem C2_witness :
    (place_marker emptyState (JVal.str "bob") (JVal.int 5) (JVal.str "L1") coordsDemo
        (JVal.str "boss") none 100 "m1").2.shared_markers =
      upd "m1" (Marker.mk (JVal.str "bob") (JVal.int 5) (JVal.str "L1") coordsDemo
        (JVal.str "boss") 100 (some (100 + MARKER_EXPIRY))) emptyState.shared_markers := by
  exact (C2_ttl_policy emptyState (JVal.str "bob") (JVal.int 5) (JVal.str "L1") coordsDemo
    (JVal.str "boss") 100 "m1" (by decide) (by decide) (by decide) (by decide) (by decide)).1

/-- C4 (counterexample): the claim says a first join of a fresh name returns
the literal `created`; the code returns the literal `"new"` (and the
no-change literal is `"no_change"`, not `unchanged`). -/
theorem C4_counterexample :
    (join emptyState (JVal.str "eve") (JVal.int 1) coordsZero (JVal.int 2) 100).1 =
      JoinResp.ok "Player joined" "new" ∧ ("new" : String) ≠ "created" := by decide

/-- C4 (amended): a join/upsert with a name not yet in the registry returns
the literal status `"new"`; an immediately repeated join with identical
name, level, position and channel returns the literal `"no_change"`; and the
status vocabulary of the operation is exactly
`"new" | "updated" | "no_change"`. -/
theorem C4_join_statuses (st : ServerState) (u l c f : JVal) (now now2 : Int)
    (hu : u.truthy = true) (hl : l.truthy = true) (hc : c.truthy = true)
    (hf : f ≠ JVal.null) (habsent : alookup u st.players = none) :
    (join st u l c f now).1 = JoinResp.ok "Player joined" "new" ∧
    (join (join st u l c f now).2 u l c f now2).1 =
      JoinResp.ok "Updated timestamp" "no_change" ∧
    (∀ st' u' l' c' f' n' msg s, (join st' u' l' c' f' n').1 = JoinResp.ok msg s →
        (s = "new" ∨ s = "updated" ∨ s = "no_change")) := by
  have h1 : join st u l c f now =
      (JoinResp.ok "Player joined" "new",
        { st with players := upd u (Player.mk l c f now) st.players }) := by
    simp [join, hu, hl, hc, hf, habsent]
  refine ⟨by rw [h1], ?_, ?_⟩
  · rw [h1]
    have hlook : alookup u (upd u (Player.mk l c f now) st.players) =
        some (Player.mk l c f now) := alookup_upd_self u _ st.players
    simp [join, hu, hl, hc, hf, hlook]
  · intro st' u' l' c' f' n' msg s h
    unfold join at h
    split at h
    · simp at h
    · split at h
      · split at h
        · simp only [Prod.fst] at h
          injection h with hmsg hs
          right; right
          exact hs.symm
        · simp only [Prod.fst] at h
          injection h with hmsg hs
          right; left
          exact hs.symm
      · simp only [Prod.fst] at h
        injection h with hmsg hs
        left
        exact hs.symm

/-- C4 (witness): the amended claim at the spec's own scenario arguments
(`"eve"`, level `1`, `{x:0,y:0,z:0}`, frequency `2`). -/
theorem C4_witness :
    (join emptyState (JVal.str "eve") (JVal.int 1) coordsZero (JVal.int 2) 100).1 =
        JoinResp.ok "Player joined" "new" ∧
    (join (join emptyState (JVal.str "eve") (JVal.int 1) coordsZero (JVal.int 2) 100).2
        (JVal.str "eve") (JVal.int 1) coordsZero (JVal.int 2) 101).1 =
      JoinResp.ok "Updated timestamp" "no_change" := by
  have h := C4_join_statuses emptyState (JVal.str "eve") (JVal.int 1) coordsZero (JVal.int 2)
    100 101 (by decide) (by decide) (by decide) (by decide) (by decide)
  exact ⟨h.1, h.2.1⟩

/-- C5 (counterexample): the claim says an identical upsert reports status
`unchanged`; the code's literal is `"no_change"`. -/
theorem C5_counterexample :
    (join stEve (JVal.str "eve") (JVal.int 1) coordsZero (JVal.int 2) 100).1 =
      JoinResp.ok "Updated timestamp" "no_change" ∧ ("no_change" : String) ≠ "unchanged" := by
  decide

/-- C5 (amended): a valid upsert whose level, position and channel are
structurally equal to the stored participant's values reports the literal
status `"no_change"` and only refreshes that participant's `last_update`:
the stored entry becomes the old record with `last_update := now` (level,
position and channel intact), every other participant's entry is untouched,
and the marker collection is untouched. -/
theorem C5_refresh_frame (st : ServerState) (u : JVal) (old : Player) (now : Int)
    (hu : u.truthy = true) (hl : old.level.truthy = true) (hc : old.coords.truthy = true)
    (hf : old.frequency ≠ JVal.null) (hlook : alookup u st.players = some old) :
    (join st u old.level old.coords old.frequency now).1 =
        JoinResp.ok "Updated timestamp" "no_change" ∧
    (join st u old.level old.coords old.frequency now).2.players =
        upd u { old with last_update := now } st.players ∧
    alookup u (join st u old.level old.coords old.frequency now).2.players =
        some (Player.mk old.level old.coords old.frequency now) ∧
    (∀ u', u' ≠ u →
        alookup u' (join st u old.level old.coords old.frequency now).2.players =
          alookup u' st.players) ∧
    (join st u old.level old.coords old.frequency now).2.shared_markers =
        st.shared_markers := by
  have hjoin : join st u old.level old.coords old.frequency now =
      (JoinResp.ok "Updated timestamp" "no_change",
        { st with players := upd u { old with last_update := now } st.players }) := by
    simp [join, hu, hl, hc, hf, hlook]
  refine ⟨by rw [hjoin], by rw [hjoin], ?_, ?_, by rw [hjoin]⟩
  · rw [hjoin]
    simpa using alookup_upd_self u ({ old with last_update := now }) st.players
  · intro u' hne
    rw [hjoin]
    exact alookup_upd_ne u u' _ st.players hne

/-- C5 (witness): the amended claim at a concrete stored participant and an
identical upsert. -/
theorem C5_witness :
    (join stEve (JVal.str "eve") pEve.level pEve.coords pEve.frequency 100).1 =
        JoinResp.ok "Updated timestamp" "no_change" ∧
    alookup (JVal.str "eve")
        (join stEve (JVal.str "eve") pEve.level pEve.coords pEve.frequency 100).2.players =
      some (Player.mk pEve.level pEve.coords pEve.frequency 100) := by
  have h := C5_refresh_frame stEve (JVal.str "eve") pEve 100 (by decide) (by decide)
    (by decide) (by decide) (by decide)
  exact ⟨h.1, h.2.2.1⟩

/-- C6 (counterexample): the claim says that whenever a requesting owner is
supplied and differs from the stored owner, removal fails with Unauthorized
and nothing changes; but the code's check is `if username and ...`, so a
supplied EMPTY-string owner (falsy, and different from the stored owner
`"bob"`) skips the ownership check and the marker is deleted. -/
theorem C6_counterexample :
    (("" : String) ≠ "bob") ∧
    remove_marker stBob "m1" (some "") =
      (RemoveResp.ok "Marker removed" "success", ServerState.mk [] []) := by decide

/-- C6 (amended): removal fails with the not-found response when the id is
absent; when the id exists and a NON-EMPTY requesting owner is supplied
that differs from the stored owner, it fails with the unauthorized response
and the state is unchanged; otherwise (no owner supplied, an empty-string
owner supplied, or a matching owner) it deletes exactly that marker, leaves
every other marker and the player collection untouched, and reports
removal. -/
theorem C6_remove_characterization (st : ServerState) (id : String)
    (username : Option String) :
    (alookup id st.shared_markers = none →
        remove_marker st id username =
          (RemoveResp.error "Marker not found" "not_found", st)) ∧
    (∀ m, alookup id st.shared_markers = some m →
      (((∃ u, username = some u ∧ u ≠ "" ∧ m.username ≠ JVal.str u) →
          remove_marker st id username =
            (RemoveResp.error "Not authorized to remove this marker" "unauthorized", st)) ∧
       (¬(∃ u, username = some u ∧ u ≠ "" ∧ m.username ≠ JVal.str u) →
          ((remove_marker st id username).1 = RemoveResp.ok "Marker removed" "success" ∧
           alookup id (remove_marker st id username).2.shared_markers = none ∧
           (∀ id', id' ≠ id →
              alookup id' (remove_marker st id username).2.shared_markers =
                alookup id' st.shared_markers) ∧
           (remove_marker st id username).2.players = st.players)))) := by
  refine ⟨?_, ?_⟩
  · intro hnone
    simp [remove_marker, hnone]
  · intro m hm
    cases username with
    | none =>
      constructor
      · rintro ⟨u, hu, _⟩
        exact absurd hu (by simp)
      · intro _
        exact remove_success_post st id none (by simp [remove_marker, hm])
    | some u =>
      by_cases hue : u = ""
      · subst hue
        constructor
        · rintro ⟨u', hu', hne', _⟩
          injection hu' with h'
          exact absurd h'.symm hne'
        · intro _
          exact remove_success_post st id (some "") (by simp [remove_marker, hm])
      · by_cases hmu : m.username = JVal.str u
        · constructor
          · rintro ⟨u', hu', _, hmm'⟩
            injection hu' with h'
            subst h'
            exact absurd hmu hmm'
          · intro _
            exact remove_success_post st id (some u) (by simp [remove_marker, hm, hue, hmu])
        · constructor
          · intro _
            simp [remove_marker, hm, hue, hmu]
          · intro hnex
            exact absurd ⟨u, rfl, hue, hmu⟩ hnex

/-- C6 (witness): a concrete mismatching non-empty owner is rejected as
unauthorized without mutation, via the characterization. -/
theorem C6_witness :
    remove_marker stBob "m1" (some "alice") =
      (RemoveResp.error "Not authorized to remove this marker" "unauthorized", stBob) := by
  have h := C6_remove_characterization stBob "m1" (some "alice")
  exact (h.2 mBob (by decide)).1 ⟨"alice", rfl, by decide, by decide⟩

/-- C7 (counterexample): the claim says ClearMarkers fails only when BOTH
filters are null, and otherwise returns a removal count; but the code's
validation is `if not username and frequency is None`, so a SUPPLIED
empty-string owner with a null channel (both filters not null in the
claim's sense is false here: owner is supplied) is rejected with the
validation error instead of returning count 0. -/
theorem C7_counterexample :
    ((some "" : Option String) ≠ none) ∧
    clear_markers emptyState (some "") none =
      (ClearResp.error "Must provide username or frequency", emptyState) := by decide

/-- C7 (amended): ClearMarkers fails with the validation error exactly when
the owner filter is null-or-empty AND the channel filter is null; otherwise
it removes exactly the markers whose owner equals the supplied NON-EMPTY
owner OR whose frequency equals the supplied frequency (each marker judged
independently), leaves the player collection untouched, and returns the
number of markers removed. -/
theorem C7_clear_characterization (st : ServerState) (username : Option String)
    (frequency : Option Int) :
    ((∀ u, username = some u → u = "") ∧ frequency = none →
        clear_markers st username frequency =
          (ClearResp.error "Must provide username or frequency", st)) ∧
    (((∃ u, username = some u ∧ u ≠ "") ∨ (∃ q, frequency = some q)) →
        ((∀ id m, (id, m) ∈ (clear_markers st username frequency).2.shared_markers ↔
            ((id, m) ∈ st.shared_markers ∧
             ¬((∃ u, username = some u ∧ u ≠ "" ∧ m.username = JVal.str u) ∨
               (∃ q, frequency = some q ∧ m.frequency = JVal.int q)))) ∧
         (clear_markers st username frequency).2.players = st.players ∧
         (∃ n, (clear_markers st username frequency).1 = ClearResp.ok n "success" ∧
            n + (clear_markers st username frequency).2.shared_markers.length =
              st.shared_markers.length))) := by
  constructor
  · rintro ⟨hu, hf⟩
    subst hf
    cases username with
    | none => simp [clear_markers]
    | some u =>
      have hue : u = "" := hu u rfl
      subst hue
      simp [clear_markers]
  · intro hval
    have hclear : clear_markers st username frequency =
        (ClearResp.ok (st.shared_markers.filter
            (fun p => clearMatch username frequency p.2)).length "success",
          { st with shared_markers :=
              st.shared_markers.filter (fun p => !clearMatch username frequency p.2) }) := by
      rcases hval with ⟨u, hu, hne⟩ | ⟨q, hq⟩
      · subst hu
        simp [clear_markers, hne]
      · subst hq
        simp [clear_markers]
    refine ⟨?_, by rw [hclear], ?_⟩
    · intro id m
      rw [hclear]
      simp only [List.mem_filter]
      constructor
      · rintro ⟨hmem, hb⟩
        refine ⟨hmem, ?_⟩
        intro hmatch
        rw [Bool.not_eq_true'] at hb
        rw [(clearMatch_iff username frequency m).mpr hmatch] at hb
        exact absurd hb (by simp)
      · rintro ⟨hmem, hnm⟩
        refine ⟨hmem, ?_⟩
        rw [Bool.not_eq_true']
        rcases hcm : clearMatch username frequency m with _ | _
        · rfl
        · exact absurd ((clearMatch_iff username frequency m).mp hcm) hnm
    · refine ⟨(st.shared_markers.filter (fun p => clearMatch username frequency p.2)).length,
        by rw [hclear], ?_⟩
      rw [hclear]
      simpa using length_filter_add_length_filter_not
        (fun p => clearMatch username frequency p.2) st.shared_markers

/-- C7 (witness): clearing by a concrete non-empty owner keeps the players
untouched and removes the marker owned by that owner, via the
characterization. -/
theorem C7_witness :
    (clear_markers stBob (some "bob") none).2.players = stBob.players ∧
    ("m1", mBob) ∉ (clear_markers stBob (some "bob") none).2.shared_markers := by
  have h := (C7_clear_characterization stBob (some "bob") none).2
    (Or.inl ⟨"bob", rfl, by decide⟩)
  refine ⟨h.2.1, ?_⟩
  intro hmem
  exact ((h.1 "m1" mBob).mp hmem).2 (Or.inl ⟨"bob", rfl, by decide, by decide⟩)

/-- C8 (confirmed): whenever `join` or `place_marker` answers with the
validation-error response, the returned state is exactly the input state:
neither the player collection nor the marker collection is mutated. -/
theorem C8_validation_no_mutation (st : ServerState) (u l c f uu ff ll cc kk : JVal)
    (ttl : Option (Option Int)) (now : Int) (id : String) :
    (∀ msg, (join st u l c f now).1 = JoinResp.error msg → (join st u l c f now).2 = st) ∧
    (∀ msg, (place_marker st uu ff ll cc kk ttl now id).1 = PlaceResp.error msg →
        (place_marker st uu ff ll cc kk ttl now id).2 = st) := by
  constructor
  · intro msg
    unfold join
    split
    · intro _
      rfl
    · split
      · split
        · intro h
          simp at h
        · intro h
          simp at h
      · intro h
        simp at h
  · intro msg
    unfold place_marker
    split
    · intro _
      rfl
    · intro h
      simp at h

/-- C8 (witness): a join with an empty username is rejected and leaves the
empty state unchanged, via the no-mutation theorem. -/
theorem C8_witness :
    (join emptyState (JVal.str "") (JVal.int 1) coordsZero (JVal.int 2) 0).2 = emptyState := by
  have h := C8_validation_no_mutation emptyState (JVal.str "") (JVal.int 1) coordsZero
    (JVal.int 2) (JVal.str "x") (JVal.int 0) (JVal.str "L") coordsZero (JVal.str "k") none 0 "m"
  exact h.1 "Missing required fields" (by decide)

/-- C9 (confirmed): in the marker query, a supplied empty-string `level`
filter behaves exactly as if the filter were omitted (the code tests the
filter's presence by truthiness), while the `frequency` filter, tested with
an explicit not-None check, constrains the results even when its value is
`0`: every marker returned under `frequency = 0` has frequency `0`. -/
theorem C9_filter_truthiness (st : ServerState) (frequency : Option Int) (now : Int) :
    get_markers st frequency (some "") now = get_markers st frequency none now ∧
    (∀ level id m, (id, m) ∈ get_markers st (some 0) level now →
        m.frequency = JVal.int 0) := by
  constructor
  · unfold get_markers
    apply List.filter_congr
    intro p _
    unfold keepMarker
    rfl
  · intro level id m hmem
    simp only [get_markers, List.mem_filter] at hmem
    exact ((keepMarker_iff (some 0) level now m).mp hmem.2).2.1 0 rfl

/-- C9 (witness): the empty-string-level equivalence at a concrete state and
frequency filter, via the theorem. -/
theorem C9_witness :
    get_markers stBob (some 5) (some "") 60 = get_markers stBob (some 5) none 60 :=
  (C9_filter_truthiness stBob (some 5) 60).1

/-- C10 (confirmed): the validation of `join` rejects exactly the requests
in which username, level or coords is falsy or frequency is null, and the
validation of `place_marker` rejects exactly the requests in which
username, level, coords or marker_type is falsy or frequency is null — so
the empty string, the integer `0` and the empty coordinate object are all
rejected as missing for the truthiness-checked fields, while a frequency of
`0` (not null) is accepted. -/
theorem C10_falsy_validation (st : ServerState) (u l c f uu ff ll cc kk : JVal)
    (ttl : Option (Option Int)) (now : Int) (id : String) :
    ((join st u l c f now).1 = JoinResp.error "Missing required fields" ↔
        ¬(u.truthy = true ∧ l.truthy = true ∧ c.truthy = true ∧ f ≠ JVal.null)) ∧
    ((place_marker st uu ff ll cc kk ttl now id).1 =
          PlaceResp.error "Missing required fields" ↔
        ¬(uu.truthy = true ∧ ff ≠ JVal.null ∧ ll.truthy = true ∧ cc.truthy = true ∧
          kk.truthy = true)) ∧
    (JVal.str "").truthy = false ∧ (JVal.int 0).truthy = false ∧
    (JVal.obj []).truthy = false ∧ JVal.int 0 ≠ JVal.null := by
  refine ⟨?_, ?_, by decide, by decide, by decide, by decide⟩
  · by_cases hcond : u.truthy = true ∧ l.truthy = true ∧ c.truthy = true ∧ f ≠ JVal.null
    · obtain ⟨hu, hl, hc, hf⟩ := hcond
      have hne : (join st u l c f now).1 ≠ JoinResp.error "Missing required fields" := by
        unfold join
        split
        · rename_i hcnd
          exfalso
          simp [hu, hl, hc, hf] at hcnd
        · split
          · split
            · simp
            · simp
          · simp
      exact ⟨fun h => absurd h hne, fun h => absurd ⟨hu, hl, hc, hf⟩ h⟩
    · have hj : (join st u l c f now).1 = JoinResp.error "Missing required fields" := by
        unfold join
        split
        · rfl
        · rename_i hb
          exfalso
          apply hcond
          simp only [Bool.not_eq_true', Bool.not_eq_false] at hb
          simpa [Bool.and_eq_true, decide_eq_true_eq, and_assoc] using hb
      exact ⟨fun _ => hcond, fun _ => hj⟩
  · by_cases hcond : uu.truthy = true ∧ ff ≠ JVal.null ∧ ll.truthy = true ∧
        cc.truthy = true ∧ kk.truthy = true
    · obtain ⟨hu, hf, hl, hc, hk⟩ := hcond
      have hne : (place_marker st uu ff ll cc kk ttl now id).1 ≠
          PlaceResp.error "Missing required fields" := by
        unfold place_marker
        split
        · rename_i hcnd
          exfalso
          simp [hu, hf, hl, hc, hk] at hcnd
        · simp
      exact ⟨fun h => absurd h hne, fun h => absurd ⟨hu, hf, hl, hc, hk⟩ h⟩
    · have hp : (place_marker st uu ff ll cc kk ttl now id).1 =
          PlaceResp.error "Missing required fields" := by
        unfold place_marker
        split
        · rfl
        · rename_i hb
          exfalso
          apply hcond
          simp only [Bool.not_eq_true', Bool.not_eq_false] at hb
          simpa [Bool.and_eq_true, decide_eq_true_eq, and_assoc] using hb
      exact ⟨fun _ => hcond, fun _ => hp⟩

/-- C10 (witness): a join whose coords are the empty object is rejected as
missing, via the validation characterization. -/
theorem C10_witness :
    (join emptyState (JVal.str "eve") (JVal.int 1) (JVal.obj []) (JVal.int 2) 0).1 =
      JoinResp.error "Missing required fields" := by
  exact (C10_falsy_validation emptyState (JVal.str "eve") (JVal.int 1) (JVal.obj [])
    (JVal.int 2) (JVal.str "x") (JVal.int 0) (JVal.str "L") coordsZero (JVal.str "k")
    none 0 "m").1.mpr (by decide)

end ServerCode
